import Mathlib

/-!
Shallow embedding of `src/File/app.py` (class `FileShareApp`), a small Flask
file-sharing service.  Time instants (Python `datetime`) are modelled as
natural numbers counting seconds; `timedelta(days=7)` is `7 * 24 * 60 * 60`
seconds.  Each request handler receives the clock reading of the request as a
parameter `now`.  The share registry (`self.shared_links`, a Python dict) is
modelled as an association list with dict-equivalent lookup / insert / delete
operations, and the storage directory as the list of file names it contains.
Random values produced inside a handler (`uuid.uuid4()` for share tokens, the
`os.urandom`-seeded MD5 suffix for stored names) are passed in as parameters.
-/

namespace FileShare

/-- Share-link lifetime: `timedelta(days=7)` from `share_file` (app.py:126),
in seconds. -/
def shareTtl : Nat := 7 * 24 * 60 * 60

/-- One value of the `self.shared_links` dict (app.py:123-127):
`{'filename': ..., 'created_at': ..., 'expires_at': ...}`. -/
structure ShareEntry where
  filename : String
  created_at : Nat
  expires_at : Nat
  deriving Repr, DecidableEq

/-- The `self.shared_links` dict, as an association list from share tokens to
entries. -/
abbrev Registry := List (String × ShareEntry)

/-- Contents of the upload folder: the list of file names present. -/
abbrev FS := List String

/-- The mutable state of a `FileShareApp` instance: the share registry and the
storage directory. -/
structure AppState where
  registry : Registry
  fs : FS
  deriving Repr, DecidableEq

/-- Dict lookup: `d[k]` / `k in d` (returns `none` when the key is absent). -/
def dictLookup (r : Registry) (k : String) : Option ShareEntry :=
  match r with
  | [] => none
  | p :: t => if p.1 = k then some p.2 else dictLookup t k

/-- Dict deletion: `del d[k]` (app.py:148).  Removes every binding of `k`;
on a dict-like registry, whose keys are unique, this is exactly `del`. -/
def dictErase (r : Registry) (k : String) : Registry :=
  match r with
  | [] => []
  | p :: t => if p.1 = k then dictErase t k else p :: dictErase t k

/-- Dict assignment: `d[k] = v` (app.py:123).  Modelled as an update that is
extensionally equal to Python's under `dictLookup`. -/
def dictInsert (r : Registry) (k : String) (v : ShareEntry) : Registry :=
  (k, v) :: dictErase r k

/-- Index of the last occurrence of `c` in `l`, like Python `str.rfind`
(which returns -1, modelled here as `none`, when absent). -/
def lastIdx (c : Char) : List Char → Option Nat
  | [] => none
  | x :: xs =>
    match lastIdx c xs with
    | some i => some (i + 1)
    | none => if x = c then some 0 else none

/-- CPython `posixpath.splitext` on a list of characters
(`genericpath._splitext` with `sep='/'`, no `altsep`, `extsep='.'`): split at
the last dot that lies after the last separator, unless every character
between the separator and that dot is itself a dot (leading-dot file names
such as `.bashrc` keep no extension). -/
def splitextChars (l : List Char) : List Char × List Char :=
  match lastIdx '.' l with
  | none => (l, [])
  | some dotIdx =>
    let base : Nat :=
      match lastIdx '/' l with
      | none => 0
      | some sepIdx => sepIdx + 1
    if base ≤ dotIdx ∧ ((l.drop base).take (dotIdx - base)).any (fun c => c ≠ '.') then
      (l.take dotIdx, l.drop dotIdx)
    else
      (l, [])

/-- `os.path.splitext` (app.py:176). -/
def splitext (p : String) : String × String :=
  let r := splitextChars p.data
  (String.mk r.1, String.mk r.2)

/-- `FileShareApp._generate_unique_filename` (app.py:173-182).  The argument
`unique_hash` stands for `hashlib.md5(f"{original_filename}{os.urandom(32)}"
.encode()).hexdigest()[:10]`, a 10-hex-character value determined by the
random bytes; the function returns `f"{name}_{unique_hash}{ext}"`. -/
def generate_unique_filename (original_filename : String) (unique_hash : String) : String :=
  let ne := splitext original_filename
  ne.1 ++ "_" ++ unique_hash ++ ne.2

/-- Number of hex characters kept from the MD5 digest by
`hexdigest()[:10]` (app.py:180). -/
def suffixHexLen : Nat := 10

/-- Length of a full MD5 `hexdigest()`: 32 hex characters (128 bits). -/
def md5HexLen : Nat := 32

/-- Number of distinct values the truncated suffix can take: one per string
of `suffixHexLen` hex characters. -/
def suffixSpaceSize : Nat := 16 ^ suffixHexLen

/-- Numeric value of `hexdigest()[:10]` applied to a 128-bit digest written
as 32 hex digits (leading zeros included): the top 10 hex digits, i.e. the
digest divided by `16 ^ 22`. -/
def suffixVal (digest : Nat) : Nat := digest / 16 ^ (md5HexLen - suffixHexLen)

/-- Outcome of `FileShareApp.shared_download` (app.py:138-158). -/
inductive DownloadResult where
  /-- `abort(404, description="Invalid or expired sharing link")` (app.py:142) -/
  | invalidLink
  /-- `abort(410, description="Sharing link has expired")` (app.py:149) -/
  | expired
  /-- `abort(404, description="File not found")` from the storage layer (app.py:158) -/
  | fileMissing
  /-- `send_file(filepath, as_attachment=True)` succeeded (app.py:156) -/
  | ok (filename : String)
  deriving Repr, DecidableEq

/-- HTTP status produced for each `shared_download` outcome. -/
def downloadStatus : DownloadResult → Nat
  | .invalidLink => 404
  | .expired => 410
  | .fileMissing => 404
  | .ok _ => 200

/-- `FileShareApp.shared_download` (app.py:138-158): unknown token aborts 404;
`datetime.now() > expires_at` deletes the entry and aborts 410; otherwise the
target file is streamed, which raises `FileNotFoundError` (mapped to a
storage-layer 404) when the file is gone. -/
def shared_download (s : AppState) (now : Nat) (share_id : String) :
    DownloadResult × AppState :=
  match dictLookup s.registry share_id with
  | none => (.invalidLink, s)
  | some info =>
    if info.expires_at < now then
      (.expired, ⟨dictErase s.registry share_id, s.fs⟩)
    else if info.filename ∈ s.fs then
      (.ok info.filename, s)
    else
      (.fileMissing, s)

/-- Outcome of `FileShareApp.share_file` (app.py:111-136). -/
inductive ShareResult where
  /-- flash + `redirect(url_for('list_files'))` when the file is absent (app.py:116-117) -/
  | redirectToList
  /-- `render_template('share.html', ...)` with the minted link (app.py:132-136) -/
  | sharePage (filename : String) (token : String)
  deriving Repr, DecidableEq

/-- HTTP status produced for each `share_file` outcome. -/
def shareStatus : ShareResult → Nat
  | .redirectToList => 302
  | .sharePage _ _ => 200

/-- `FileShareApp.share_file` (app.py:111-136).  `share_id` stands for the
fresh `str(uuid.uuid4())`; both `datetime.now()` reads of the handler are the
request clock `now`. -/
def share_file (s : AppState) (now : Nat) (share_id : String) (filename : String) :
    ShareResult × AppState :=
  if filename ∉ s.fs then
    (.redirectToList, s)
  else
    (.sharePage filename share_id,
      ⟨dictInsert s.registry share_id ⟨filename, now, now + shareTtl⟩, s.fs⟩)

/-- Outcome of `FileShareApp.delete_file` (app.py:90-109); both cases end in a
redirect to the list page. -/
inductive DeleteResult where
  /-- flash 'File not found' (app.py:96) -/
  | missing
  /-- `os.remove` succeeded (app.py:101-104) -/
  | deleted
  deriving Repr, DecidableEq

/-- `FileShareApp.delete_file` (app.py:90-109).  The handler never touches
`self.shared_links`; the filesystem model has no I/O faults, so the
`except` branch of `os.remove` is unreachable here. -/
def delete_file (s : AppState) (filename : String) : DeleteResult × AppState :=
  if filename ∉ s.fs then
    (.missing, s)
  else
    (.deleted, ⟨s.registry, s.fs.filter (fun n => n ≠ filename)⟩)

/-- Outcome of `FileShareApp.upload` (app.py:46-77). -/
inductive UploadResult where
  /-- 400 'No file part' (app.py:49) -/
  | noFilePart
  /-- 400 'No selected file' (app.py:54) -/
  | noSelectedFile
  /-- 400 'File too large' (app.py:63-65) -/
  | tooLarge
  /-- file saved, `redirect(url_for('list_files'))` (app.py:72-77) -/
  | uploaded (storedName : String)
  deriving Repr, DecidableEq

/-- HTTP status produced for each `upload` outcome. -/
def uploadStatus : UploadResult → Nat
  | .noFilePart => 400
  | .noSelectedFile => 400
  | .tooLarge => 400
  | .uploaded _ => 302

/-- Default `max_file_size` of `FileShareApp.__init__` (app.py:10): 16 MiB. -/
def defaultMaxFileSize : Nat := 16 * 1024 * 1024

/-- `FileShareApp.upload` (app.py:46-77).  `hasFilePart` models
`'file' in request.files`, `origName` the submitted `file.filename`,
`fileSize` the byte count measured by the seek/tell at app.py:58-59, and
`unique_hash` the random 10-hex-character suffix.  `file.save(filepath)` adds
the stored name to the directory. -/
def upload (s : AppState) (max_file_size : Nat) (hasFilePart : Bool)
    (origName : String) (fileSize : Nat) (unique_hash : String) :
    UploadResult × AppState :=
  if hasFilePart = false then
    (.noFilePart, s)
  else if origName = "" then
    (.noSelectedFile, s)
  else if max_file_size < fileSize then
    (.tooLarge, s)
  else
    (.uploaded (generate_unique_filename origName unique_hash),
      ⟨s.registry, generate_unique_filename origName unique_hash :: s.fs⟩)

/-- Invariant of the share registry claimed by the spec: every entry expires
exactly one TTL after its creation, strictly later than it was created. -/
def registryInv (r : Registry) : Prop :=
  ∀ p ∈ r, p.2.expires_at = p.2.created_at + shareTtl ∧ p.2.created_at < p.2.expires_at

/-! ### Dictionary lemmas -/

theorem dictLookup_dictErase_self (r : Registry) (k : String) :
    dictLookup (dictErase r k) k = none := by
  induction r with
  | nil => rfl
  | cons p t ih =>
    by_cases h : p.1 = k <;> simp [dictErase, dictLookup, h, ih]

theorem dictLookup_dictErase_ne (r : Registry) (k k2 : String) (hne : k2 ≠ k) :
    dictLookup (dictErase r k) k2 = dictLookup r k2 := by
  induction r with
  | nil => rfl
  | cons p t ih =>
    by_cases h : p.1 = k
    · have h2 : ¬ p.1 = k2 := fun hc => hne (hc ▸ h)
      rw [dictErase, if_pos h, ih, dictLookup, if_neg h2]
    · rw [dictErase, if_neg h, dictLookup, dictLookup]
      by_cases h2 : p.1 = k2
      · rw [if_pos h2, if_pos h2]
      · rw [if_neg h2, if_neg h2, ih]

theorem dictLookup_dictInsert_self (r : Registry) (k : String) (v : ShareEntry) :
    dictLookup (dictInsert r k v) k = some v := by
  simp [dictInsert, dictLookup]

theorem dictLookup_dictInsert_ne (r : Registry) (k k2 : String) (v : ShareEntry)
    (hne : k2 ≠ k) :
    dictLookup (dictInsert r k v) k2 = dictLookup r k2 := by
  have : ¬ k = k2 := fun hc => hne hc.symm
  simp [dictInsert, dictLookup, this, dictLookup_dictErase_ne r k k2 hne]

theorem mem_of_mem_dictErase (r : Registry) (k : String) (p : String × ShareEntry)
    (h : p ∈ dictErase r k) : p ∈ r := by
  induction r with
  | nil => simp [dictErase] at h
  | cons q t ih =>
    by_cases hq : q.1 = k
    · simp only [dictErase, if_pos hq] at h
      exact List.mem_cons_of_mem _ (ih h)
    · simp only [dictErase, if_neg hq, List.mem_cons] at h
      rcases h with h | h
      · exact h ▸ List.mem_cons_self _ _
      · exact List.mem_cons_of_mem _ (ih h)

theorem registryInv_dictErase (r : Registry) (k : String) (h : registryInv r) :
    registryInv (dictErase r k) :=
  fun p hp => h p (mem_of_mem_dictErase r k p hp)

theorem registryInv_dictInsert (r : Registry) (k : String) (v : ShareEntry)
    (h : registryInv r)
    (hv : v.expires_at = v.created_at + shareTtl ∧ v.created_at < v.expires_at) :
    registryInv (dictInsert r k v) := by
  intro p hp
  rcases List.mem_cons.mp hp with hp | hp
  · exact hp ▸ hv
  · exact registryInv_dictErase r k h p hp

/-! ### Branch lemmas for the handlers -/

theorem shared_download_lookup_none (s : AppState) (now : Nat) (tok : String)
    (h : dictLookup s.registry tok = none) :
    shared_download s now tok = (.invalidLink, s) := by
  simp only [shared_download, h]

theorem shared_download_past_expiry (s : AppState) (now : Nat) (tok : String)
    (e : ShareEntry) (h : dictLookup s.registry tok = some e)
    (he : e.expires_at < now) :
    shared_download s now tok = (.expired, ⟨dictErase s.registry tok, s.fs⟩) := by
  simp only [shared_download, h, if_pos he]

theorem shared_download_live_present (s : AppState) (now : Nat) (tok : String)
    (e : ShareEntry) (h : dictLookup s.registry tok = some e)
    (he : ¬ e.expires_at < now) (hf : e.filename ∈ s.fs) :
    shared_download s now tok = (.ok e.filename, s) := by
  simp only [shared_download, h, if_neg he, if_pos hf]

theorem shared_download_live_absent (s : AppState) (now : Nat) (tok : String)
    (e : ShareEntry) (h : dictLookup s.registry tok = some e)
    (he : ¬ e.expires_at < now) (hf : e.filename ∉ s.fs) :
    shared_download s now tok = (.fileMissing, s) := by
  simp only [shared_download, h, if_neg he, if_neg hf]

theorem delete_file_registry_eq (s : AppState) (fn : String) :
    (delete_file s fn).2.registry = s.registry := by
  by_cases h : fn ∉ s.fs <;> simp [delete_file, h]

theorem not_mem_delete_file_fs (s : AppState) (fn : String) :
    fn ∉ (delete_file s fn).2.fs := by
  by_cases h : fn ∉ s.fs
  · simp only [delete_file, if_pos h]
    exact h
  · simp only [delete_file, if_neg h]
    simp [List.mem_filter]

theorem upload_registry_eq (s : AppState) (m : Nat) (hasFile : Bool) (nm : String)
    (sz : Nat) (hsh : String) :
    (upload s m hasFile nm sz hsh).2.registry = s.registry := by
  unfold upload
  by_cases h1 : hasFile = false <;> by_cases h2 : nm = "" <;> by_cases h3 : m < sz <;>
    simp [h1, h2, h3]

theorem registryInv_share_file (s : AppState) (now : Nat) (tok fn : String)
    (h : registryInv s.registry) :
    registryInv (share_file s now tok fn).2.registry := by
  by_cases hf : fn ∉ s.fs
  · simp only [share_file, if_pos hf]
    exact h
  · simp only [share_file, if_neg hf]
    exact registryInv_dictInsert _ _ _ h
      ⟨rfl, Nat.lt_add_of_pos_right (by norm_num [shareTtl])⟩

theorem registryInv_shared_download (s : AppState) (now : Nat) (tok : String)
    (h : registryInv s.registry) :
    registryInv (shared_download s now tok).2.registry := by
  rcases hl : dictLookup s.registry tok with _ | e
  · rw [shared_download_lookup_none s now tok hl]
    exact h
  · by_cases he : e.expires_at < now
    · rw [shared_download_past_expiry s now tok e hl he]
      exact registryInv_dictErase _ _ h
    · by_cases hf : e.filename ∈ s.fs
      · rw [shared_download_live_present s now tok e hl he hf]
        exact h
      · rw [shared_download_live_absent s now tok e hl he hf]
        exact h

/-! ### Claims -/

/-- C1: the claim that every stored name produced by
`_generate_unique_filename` is syntactically safe (no directory separators,
no path traversal) fails on the code.  The function performs no sanitisation
(the imported `secure_filename` is never called), so the requested name
`"../evil.txt"` yields the stored name `"../evil_0123456789.txt"`, which
still contains a directory separator and starts with a `..` component, and
therefore escapes the storage root once `upload` joins it onto the upload
folder. -/
theorem C1_unsafe_stored_name :
    generate_unique_filename "../evil.txt" "0123456789" = "../evil_0123456789.txt" ∧
    '/' ∈ (generate_unique_filename "../evil.txt" "0123456789").data ∧
    (generate_unique_filename "../evil.txt" "0123456789").take 3 = "../" := by
  refine ⟨by decide, by decide, by decide⟩

/-- C2: resolving a registered token strictly after its expiry aborts with
410 (`ExpiredError`), deletes the registry entry on that very access, and a
subsequent resolve of the same token aborts with 404 (`NotFoundError`); no
other code path evicts entries. -/
theorem C2_expired_then_gone (s : AppState) (now now2 : Nat) (tok : String)
    (e : ShareEntry)
    (hlook : dictLookup s.registry tok = some e)
    (hexp : e.expires_at < now) :
    (shared_download s now tok).1 = .expired ∧
    downloadStatus (shared_download s now tok).1 = 410 ∧
    dictLookup (shared_download s now tok).2.registry tok = none ∧
    (shared_download (shared_download s now tok).2 now2 tok).1 = .invalidLink ∧
    downloadStatus (shared_download (shared_download s now tok).2 now2 tok).1 = 404 := by
  have h1 := shared_download_past_expiry s now tok e hlook hexp
  have hnone : dictLookup (dictErase s.registry tok) tok = none :=
    dictLookup_dictErase_self s.registry tok
  rw [h1]
  have h2 := shared_download_lookup_none
    (⟨dictErase s.registry tok, s.fs⟩ : AppState) now2 tok hnone
  rw [h2]
  exact ⟨rfl, rfl, hnone, rfl, rfl⟩

/-- C2 witness: a concrete registry entry that expired at time 5, resolved at
time 6 and again at time 7. -/
theorem C2_expired_then_gone_witness :
    dictLookup (⟨[("t", ⟨"f", 0, 5⟩)], ["f"]⟩ : AppState).registry "t" =
      some ⟨"f", 0, 5⟩ ∧
    (⟨"f", 0, 5⟩ : ShareEntry).expires_at < 6 ∧
    ((shared_download ⟨[("t", ⟨"f", 0, 5⟩)], ["f"]⟩ 6 "t").1 = .expired ∧
     downloadStatus (shared_download ⟨[("t", ⟨"f", 0, 5⟩)], ["f"]⟩ 6 "t").1 = 410 ∧
     dictLookup (shared_download ⟨[("t", ⟨"f", 0, 5⟩)], ["f"]⟩ 6 "t").2.registry "t" = none ∧
     (shared_download (shared_download ⟨[("t", ⟨"f", 0, 5⟩)], ["f"]⟩ 6 "t").2 7 "t").1 =
       .invalidLink ∧
     downloadStatus
       (shared_download (shared_download ⟨[("t", ⟨"f", 0, 5⟩)], ["f"]⟩ 6 "t").2 7 "t").1 =
       404) :=
  ⟨by decide, by decide,
    C2_expired_then_gone ⟨[("t", ⟨"f", 0, 5⟩)], ["f"]⟩ 6 7 "t" ⟨"f", 0, 5⟩
      (by decide) (by decide)⟩

/-- C5: resolving a token that is not in the registry aborts with 404 and
leaves the whole application state (registry and storage directory)
unchanged. -/
theorem C5_unknown_token (s : AppState) (now : Nat) (tok : String)
    (h : dictLookup s.registry tok = none) :
    (shared_download s now tok).1 = .invalidLink ∧
    downloadStatus (shared_download s now tok).1 = 404 ∧
    (shared_download s now tok).2 = s := by
  rw [shared_download_lookup_none s now tok h]
  exact ⟨rfl, rfl, rfl⟩

/-- C5 witness: a never-issued token against a one-entry registry. -/
theorem C5_unknown_token_witness :
    dictLookup (⟨[("t", ⟨"f", 0, 5⟩)], ["f"]⟩ : AppState).registry "other" = none ∧
    ((shared_download ⟨[("t", ⟨"f", 0, 5⟩)], ["f"]⟩ 3 "other").1 = .invalidLink ∧
     downloadStatus (shared_download ⟨[("t", ⟨"f", 0, 5⟩)], ["f"]⟩ 3 "other").1 = 404 ∧
     (shared_download ⟨[("t", ⟨"f", 0, 5⟩)], ["f"]⟩ 3 "other").2 =
       ⟨[("t", ⟨"f", 0, 5⟩)], ["f"]⟩) :=
  ⟨by decide, C5_unknown_token ⟨[("t", ⟨"f", 0, 5⟩)], ["f"]⟩ 3 "other" (by decide)⟩

/-- C9: at the exact expiry instant the comparison `datetime.now() >
expires_at` is false, so resolution still succeeds and the entry stays in the
registry; a token becomes unresolvable only strictly after `expires_at`. -/
theorem C9_boundary_still_live (s : AppState) (tok : String) (e : ShareEntry)
    (hlook : dictLookup s.registry tok = some e)
    (hfile : e.filename ∈ s.fs) :
    (shared_download s e.expires_at tok).1 = .ok e.filename ∧
    downloadStatus (shared_download s e.expires_at tok).1 = 200 ∧
    (shared_download s e.expires_at tok).2 = s := by
  rw [shared_download_live_present s e.expires_at tok e hlook (lt_irrefl _) hfile]
  exact ⟨rfl, rfl, rfl⟩

/-- C9 witness: resolving at exactly the expiry time 5. -/
theorem C9_boundary_still_live_witness :
    dictLookup (⟨[("t", ⟨"f", 0, 5⟩)], ["f"]⟩ : AppState).registry "t" =
      some ⟨"f", 0, 5⟩ ∧
    (⟨"f", 0, 5⟩ : ShareEntry).filename ∈ (⟨[("t", ⟨"f", 0, 5⟩)], ["f"]⟩ : AppState).fs ∧
    ((shared_download ⟨[("t", ⟨"f", 0, 5⟩)], ["f"]⟩ (⟨"f", 0, 5⟩ : ShareEntry).expires_at
        "t").1 = .ok (⟨"f", 0, 5⟩ : ShareEntry).filename ∧
     downloadStatus (shared_download ⟨[("t", ⟨"f", 0, 5⟩)], ["f"]⟩
        (⟨"f", 0, 5⟩ : ShareEntry).expires_at "t").1 = 200 ∧
     (shared_download ⟨[("t", ⟨"f", 0, 5⟩)], ["f"]⟩
        (⟨"f", 0, 5⟩ : ShareEntry).expires_at "t").2 = ⟨[("t", ⟨"f", 0, 5⟩)], ["f"]⟩) :=
  ⟨by decide, by decide,
    C9_boundary_still_live ⟨[("t", ⟨"f", 0, 5⟩)], ["f"]⟩ "t" ⟨"f", 0, 5⟩
      (by decide) (by decide)⟩

/-- C3: the TTL is the fixed 7 days, every entry inserted by `share_file` has
`expires_at = created_at + shareTtl` (hence strictly later than its
creation), and the invariant is preserved by every handler: `share_file`
inserts only such entries, `shared_download` at most deletes an entry, and
`delete_file` and `upload` never touch the registry. -/
theorem C3_ttl_invariant (s : AppState) (now : Nat) (tok fn dl : String)
    (m sz : Nat) (hasFile : Bool) (nm hsh : String)
    (hinv : registryInv s.registry) :
    shareTtl = 7 * 24 * 60 * 60 ∧
    registryInv (share_file s now tok fn).2.registry ∧
    registryInv (shared_download s now tok).2.registry ∧
    registryInv (delete_file s dl).2.registry ∧
    registryInv (upload s m hasFile nm sz hsh).2.registry := by
  refine ⟨rfl, registryInv_share_file s now tok fn hinv,
    registryInv_shared_download s now tok hinv, ?_, ?_⟩
  · rw [delete_file_registry_eq]
    exact hinv
  · rw [upload_registry_eq]
    exact hinv

/-- C3 witness: starting from a state whose registry holds one well-formed
entry, every handler preserves the invariant. -/
theorem C3_ttl_invariant_witness :
    registryInv (⟨[("t", ⟨"f", 3, 3 + shareTtl⟩)], ["f"]⟩ : AppState).registry ∧
    (shareTtl = 7 * 24 * 60 * 60 ∧
     registryInv (share_file ⟨[("t", ⟨"f", 3, 3 + shareTtl⟩)], ["f"]⟩ 9 "u" "f").2.registry ∧
     registryInv (shared_download ⟨[("t", ⟨"f", 3, 3 + shareTtl⟩)], ["f"]⟩ 9 "t").2.registry ∧
     registryInv (delete_file ⟨[("t", ⟨"f", 3, 3 + shareTtl⟩)], ["f"]⟩ "f").2.registry ∧
     registryInv (upload ⟨[("t", ⟨"f", 3, 3 + shareTtl⟩)], ["f"]⟩ 100 true "a.txt" 40
        "0123456789").2.registry) :=
  ⟨by norm_num [registryInv, shareTtl], C3_ttl_invariant ⟨[("t", ⟨"f", 3, 3 + shareTtl⟩)], ["f"]⟩
    9 "u" "f" "f" 100 40 true "a.txt" "0123456789" (by norm_num [registryInv, shareTtl])⟩

/-- C4: `delete_file` never touches `self.shared_links`, so after deleting
the file a share token references, the token is still registered with its
original entry; resolving it before expiry passes the registry lookup (and
the expiry check) and only then fails with the storage-layer 404 raised by
`send_file` on the missing file, leaving the registry unchanged again. -/
theorem C4_delete_keeps_tokens (s : AppState) (now : Nat) (tok : String)
    (e : ShareEntry)
    (hlook : dictLookup s.registry tok = some e)
    (hexp : now ≤ e.expires_at) :
    (delete_file s e.filename).2.registry = s.registry ∧
    (shared_download (delete_file s e.filename).2 now tok).1 = .fileMissing ∧
    downloadStatus (shared_download (delete_file s e.filename).2 now tok).1 = 404 ∧
    (shared_download (delete_file s e.filename).2 now tok).2.registry = s.registry := by
  have hreg := delete_file_registry_eq s e.filename
  have hlook2 : dictLookup (delete_file s e.filename).2.registry tok = some e := by
    rw [hreg]
    exact hlook
  have hnl : ¬ e.expires_at < now := Nat.not_lt.mpr hexp
  have hmem := not_mem_delete_file_fs s e.filename
  have hmain := shared_download_live_absent (delete_file s e.filename).2 now tok e
    hlook2 hnl hmem
  rw [hmain]
  exact ⟨hreg, rfl, rfl, hreg⟩

/-- C4 witness: deleting the file behind a live token, then resolving the
token at time 4 (before its expiry at 5). -/
theorem C4_delete_keeps_tokens_witness :
    dictLookup (⟨[("t", ⟨"f", 0, 5⟩)], ["f"]⟩ : AppState).registry "t" =
      some ⟨"f", 0, 5⟩ ∧
    4 ≤ (⟨"f", 0, 5⟩ : ShareEntry).expires_at ∧
    ((delete_file ⟨[("t", ⟨"f", 0, 5⟩)], ["f"]⟩
        (⟨"f", 0, 5⟩ : ShareEntry).filename).2.registry =
      (⟨[("t", ⟨"f", 0, 5⟩)], ["f"]⟩ : AppState).registry ∧
     (shared_download (delete_file ⟨[("t", ⟨"f", 0, 5⟩)], ["f"]⟩
        (⟨"f", 0, 5⟩ : ShareEntry).filename).2 4 "t").1 = .fileMissing ∧
     downloadStatus (shared_download (delete_file ⟨[("t", ⟨"f", 0, 5⟩)], ["f"]⟩
        (⟨"f", 0, 5⟩ : ShareEntry).filename).2 4 "t").1 = 404 ∧
     (shared_download (delete_file ⟨[("t", ⟨"f", 0, 5⟩)], ["f"]⟩
        (⟨"f", 0, 5⟩ : ShareEntry).filename).2 4 "t").2.registry =
      (⟨[("t", ⟨"f", 0, 5⟩)], ["f"]⟩ : AppState).registry) :=
  ⟨by decide, by decide,
    C4_delete_keeps_tokens ⟨[("t", ⟨"f", 0, 5⟩)], ["f"]⟩ 4 "t" ⟨"f", 0, 5⟩
      (by decide) (by decide)⟩

/-- C6: an upload whose measured size strictly exceeds `max_file_size`
returns the 400 'File too large' page before `file.save` runs, so the whole
application state — in particular the storage directory — is unchanged. -/
theorem C6_too_large_rejected (s : AppState) (m sz : Nat) (nm hsh : String)
    (hname : nm ≠ "") (hsz : m < sz) :
    (upload s m true nm sz hsh).1 = .tooLarge ∧
    uploadStatus (upload s m true nm sz hsh).1 = 400 ∧
    (upload s m true nm sz hsh).2 = s := by
  have h : upload s m true nm sz hsh = (.tooLarge, s) := by
    simp [upload, hname, hsz]
  rw [h]
  exact ⟨rfl, rfl, rfl⟩

/-- C6 witness: max 100 bytes, upload of 101 bytes. -/
theorem C6_too_large_rejected_witness :
    ("a.txt" : String) ≠ "" ∧ (100 : Nat) < 101 ∧
    ((upload ⟨[], ["f"]⟩ 100 true "a.txt" 101 "0123456789").1 = .tooLarge ∧
     uploadStatus (upload ⟨[], ["f"]⟩ 100 true "a.txt" 101 "0123456789").1 = 400 ∧
     (upload ⟨[], ["f"]⟩ 100 true "a.txt" 101 "0123456789").2 = ⟨[], ["f"]⟩) :=
  ⟨by decide, by decide,
    C6_too_large_rejected ⟨[], ["f"]⟩ 100 101 "a.txt" "0123456789"
      (by decide) (by decide)⟩

/-- C7: `share_file` checks existence of the named file exactly once, at
creation: if absent it redirects (302) to the list page with the registry
untouched; if present it registers the fresh token with expiry
`now + shareTtl`, leaves every other token's binding unchanged, leaves the
storage directory unchanged, and renders the share page (200).  No later
operation re-validates existence (see C4). -/
theorem C7_share_create (s : AppState) (now : Nat) (tok fn : String)
    (_hfresh : dictLookup s.registry tok = none) :
    (fn ∉ s.fs →
      share_file s now tok fn = (.redirectToList, s) ∧
      shareStatus (share_file s now tok fn).1 = 302) ∧
    (fn ∈ s.fs →
      (share_file s now tok fn).1 = .sharePage fn tok ∧
      shareStatus (share_file s now tok fn).1 = 200 ∧
      (share_file s now tok fn).2.fs = s.fs ∧
      dictLookup (share_file s now tok fn).2.registry tok =
        some ⟨fn, now, now + shareTtl⟩ ∧
      (∀ t2, t2 ≠ tok →
        dictLookup (share_file s now tok fn).2.registry t2 =
          dictLookup s.registry t2)) := by
  constructor
  · intro h
    have heq : share_file s now tok fn = (.redirectToList, s) := by
      simp only [share_file, if_pos h]
    rw [heq]
    exact ⟨rfl, rfl⟩
  · intro h
    have h2 : ¬ fn ∉ s.fs := fun hc => hc h
    have heq : share_file s now tok fn =
        (.sharePage fn tok,
          ⟨dictInsert s.registry tok ⟨fn, now, now + shareTtl⟩, s.fs⟩) := by
      simp only [share_file, if_neg h2]
    rw [heq]
    exact ⟨rfl, rfl, rfl, dictLookup_dictInsert_self _ _ _,
      fun t2 ht2 => dictLookup_dictInsert_ne _ _ _ _ ht2⟩

/-- C7 witness: minting a share link for a present file with a fresh token. -/
theorem C7_share_create_witness :
    dictLookup (⟨[], ["f"]⟩ : AppState).registry "t" = none ∧
    (("g" ∉ (⟨[], ["f"]⟩ : AppState).fs →
      share_file ⟨[], ["f"]⟩ 2 "t" "g" = (.redirectToList, ⟨[], ["f"]⟩) ∧
      shareStatus (share_file ⟨[], ["f"]⟩ 2 "t" "g").1 = 302) ∧
     ("g" ∈ (⟨[], ["f"]⟩ : AppState).fs →
      (share_file ⟨[], ["f"]⟩ 2 "t" "g").1 = .sharePage "g" "t" ∧
      shareStatus (share_file ⟨[], ["f"]⟩ 2 "t" "g").1 = 200 ∧
      (share_file ⟨[], ["f"]⟩ 2 "t" "g").2.fs = (⟨[], ["f"]⟩ : AppState).fs ∧
      dictLookup (share_file ⟨[], ["f"]⟩ 2 "t" "g").2.registry "t" =
        some ⟨"g", 2, 2 + shareTtl⟩ ∧
      (∀ t2, t2 ≠ "t" →
        dictLookup (share_file ⟨[], ["f"]⟩ 2 "t" "g").2.registry t2 =
          dictLookup (⟨[], ["f"]⟩ : AppState).registry t2))) :=
  ⟨by decide, C7_share_create ⟨[], ["f"]⟩ 2 "t" "g" (by decide)⟩

/-- C10: an upload whose size equals `max_file_size` exactly is not rejected
— the check at app.py:62 uses a strict comparison — and the derived stored
name is saved into the storage directory with the registry untouched. -/
theorem C10_exact_max_accepted (s : AppState) (m : Nat) (nm hsh : String)
    (hname : nm ≠ "") :
    (upload s m true nm m hsh).1 = .uploaded (generate_unique_filename nm hsh) ∧
    uploadStatus (upload s m true nm m hsh).1 = 302 ∧
    (upload s m true nm m hsh).2.fs = generate_unique_filename nm hsh :: s.fs ∧
    (upload s m true nm m hsh).2.registry = s.registry := by
  have h : upload s m true nm m hsh =
      (.uploaded (generate_unique_filename nm hsh),
        ⟨s.registry, generate_unique_filename nm hsh :: s.fs⟩) := by
    simp [upload, hname]
  rw [h]
  exact ⟨rfl, rfl, rfl, rfl⟩

/-- C10 witness: an upload of exactly 100 bytes with max 100 bytes. -/
theorem C10_exact_max_accepted_witness :
    ("a.txt" : String) ≠ "" ∧
    ((upload ⟨[], []⟩ 100 true "a.txt" 100 "0123456789").1 =
      .uploaded (generate_unique_filename "a.txt" "0123456789") ∧
     uploadStatus (upload ⟨[], []⟩ 100 true "a.txt" 100 "0123456789").1 = 302 ∧
     (upload ⟨[], []⟩ 100 true "a.txt" 100 "0123456789").2.fs =
      generate_unique_filename "a.txt" "0123456789" :: ([] : FS) ∧
     (upload ⟨[], []⟩ 100 true "a.txt" 100 "0123456789").2.registry =
      (⟨[], []⟩ : AppState).registry) :=
  ⟨by decide, C10_exact_max_accepted ⟨[], []⟩ 100 "a.txt" "0123456789" (by decide)⟩

/-- C8 counterexample: the suffix appended by `_generate_unique_filename` is
`hexdigest()[:10]` — 10 hexadecimal characters — so its value space has
`16 ^ 10 = 2 ^ 40` elements, strictly fewer than the `2 ^ 64` the claim
requires. -/
theorem C8_suffix_space_too_small : suffixSpaceSize < 2 ^ 64 := by decide

/-- C8 (amended): every truncated-digest value is below `suffixSpaceSize`,
and that space has exactly `2 ^ 40` elements: the collision-breaking suffix
carries 40 bits of randomness, not the claimed minimum of 64. -/
theorem C8_forty_bit_suffix (d : Nat) (hd : d < 16 ^ md5HexLen) :
    suffixVal d < suffixSpaceSize ∧ suffixSpaceSize = 2 ^ 40 := by
  refine ⟨?_, by decide⟩
  show d / 16 ^ (md5HexLen - suffixHexLen) < 16 ^ suffixHexLen
  rw [Nat.div_lt_iff_lt_mul (by positivity)]
  calc d < 16 ^ md5HexLen := hd
    _ = 16 ^ suffixHexLen * 16 ^ (md5HexLen - suffixHexLen) := by
        norm_num [md5HexLen, suffixHexLen]

/-- C8 witness: the digest 0. -/
theorem C8_forty_bit_suffix_witness :
    (0 : Nat) < 16 ^ md5HexLen ∧
    (suffixVal 0 < suffixSpaceSize ∧ suffixSpaceSize = 2 ^ 40) :=
  ⟨by decide, C8_forty_bit_suffix 0 (by decide)⟩

end FileShare
